import Mathlib

/-!
Verification development for the brokerage back-office repository.

The definitions below are shallow embeddings of the JavaScript source:
  * `src/unnamed/part_000`                         — user dashboard balance read
  * `src/src/controllers/orderhistory.controller.js` — trades, auth, approval
    workflow, notification gateway, admin KPI trends, admin user view
  * `src/src/models/settings.model.js`             — key-value settings store

Monetary amounts and prices are modelled as rationals (`ℚ`); MongoDB
aggregation pipelines over a user's documents are modelled as list
filter/map/sum over an in-memory snapshot of the collection.  The pattern
`agg[0]?.total || 0` (empty aggregation result treated as 0) coincides with
the sum over the empty list, so it needs no separate branch.
-/

namespace Backend

/-- `type` field of a cash transaction document. -/
inductive TxType
  | DEPOSIT
  | WITHDRAWAL
deriving DecidableEq, Repr

/-- `status` field of a cash transaction document. -/
inductive TxStatus
  | PENDING
  | COMPLETED
  | CANCELLED
  | FAILED
deriving DecidableEq, Repr

/-- A cash-transaction (ledger) document, the fields the balance reads use. -/
structure Tx where
  userId : Nat
  type : TxType
  status : TxStatus
  amount : ℚ
deriving DecidableEq, Repr

/-- `status` field of a trade/order document. -/
inductive OrderStatus
  | OPEN
  | CLOSED
deriving DecidableEq, Repr

/-- The `priceRange` sub-document of an order. -/
structure PriceRange where
  low : Option ℚ
  high : Option ℚ
  mid : ℚ
deriving DecidableEq, Repr

/-- A trade/order document (`OrderHistory` collection).  `type` is stored as
the uppercased string sent by the client (`'LONG'` / `'SHORT'`). -/
structure Order where
  userId : Nat
  symbol : String
  type : String
  quantity : ℚ
  buyPrice : ℚ
  sellPrice : Option ℚ
  tradeAmount : ℚ
  priceRange : PriceRange
  currentPrice : Option ℚ
  profitLoss : Option ℚ
  status : OrderStatus
deriving DecidableEq, Repr

/-- Response body of the user dashboard read (`getUserDashboardData`). -/
structure DashboardData where
  accountBalance : ℚ
  totalDeposit : ℚ
  totalWithdrawals : ℚ
  profitLoss : ℚ
  orderInvestment : ℚ
deriving DecidableEq, Repr

/-- Embeds `getUserDashboardData` from `src/unnamed/part_000`: four
aggregations over the user's transactions and orders followed by
`accountBalance = baseBalance - orderInvestment + profitLoss`.
The `$ifNull: ['$profitLoss', 0]` on closed trades is `Option.getD 0`. -/
def getUserDashboardData (uid : Nat) (txs : List Tx) (orders : List Order) :
    DashboardData :=
  let deposit := ((txs.filter (fun t =>
    decide (t.userId = uid ∧ t.type = TxType.DEPOSIT ∧
      t.status = TxStatus.COMPLETED))).map (fun t => t.amount)).sum
  let withdrawals := ((txs.filter (fun t =>
    decide (t.userId = uid ∧ t.type = TxType.WITHDRAWAL ∧
      t.status = TxStatus.COMPLETED))).map (fun t => t.amount)).sum
  let baseBalance := deposit - withdrawals
  let orderInvestment := ((orders.filter (fun o =>
    decide (o.userId = uid ∧ o.status = OrderStatus.OPEN))).map
      (fun o => o.tradeAmount)).sum
  let profitLoss := ((orders.filter (fun o =>
    decide (o.userId = uid ∧ o.status = OrderStatus.CLOSED))).map
      (fun o => o.profitLoss.getD 0)).sum
  { accountBalance := baseBalance - orderInvestment + profitLoss
    totalDeposit := deposit
    totalWithdrawals := withdrawals
    profitLoss := profitLoss
    orderInvestment := orderInvestment }

/-- `balanceInfo` object of the admin per-user view (`getUserbyId`). -/
structure BalanceInfo where
  accountBalance : ℚ
  totalDeposit : ℚ
  totalWithdrawals : ℚ
  orderInvestment : ℚ
  profitLoss : ℚ
deriving DecidableEq, Repr

/-- Embeds the balance computation of `getUserbyId`
(`orderhistory.controller.js`): one aggregation over all of the user's
transactions with `$cond`-guarded sums for completed deposits/withdrawals,
`accountBalance = totalDeposits - totalWithdrawals`, and one aggregation over
all of the user's orders (no status filter) summing `tradeAmount` and
`profitLoss` with `$ifNull` defaults.  When the user has no matching
documents the aggregation returns no row and the zero-initialised
`balanceInfo` is kept, which coincides with the empty-list sums. -/
def getUserbyIdBalanceInfo (uid : Nat) (txs : List Tx) (orders : List Order) :
    BalanceInfo :=
  let userTxs := txs.filter (fun t => decide (t.userId = uid))
  let totalDeposits := (userTxs.map (fun t =>
    if t.type = TxType.DEPOSIT ∧ t.status = TxStatus.COMPLETED
    then t.amount else 0)).sum
  let totalWithdrawals := (userTxs.map (fun t =>
    if t.type = TxType.WITHDRAWAL ∧ t.status = TxStatus.COMPLETED
    then t.amount else 0)).sum
  let userOrders := orders.filter (fun o => decide (o.userId = uid))
  let totalInvestment := (userOrders.map (fun o => o.tradeAmount)).sum
  let totalProfitLoss := (userOrders.map (fun o => o.profitLoss.getD 0)).sum
  { accountBalance := totalDeposits - totalWithdrawals
    totalDeposit := totalDeposits
    totalWithdrawals := totalWithdrawals
    orderInvestment := totalInvestment
    profitLoss := totalProfitLoss }

/-- A document of the `Settings` collection (`settings.model.js`).  The
schema's `value` is `Mixed`; it is modelled with a type parameter. -/
structure Setting (α : Type) where
  key : String
  value : α
  description : String
deriving DecidableEq, Repr

/-- `this.findOne({ key })`: first document whose `key` matches. -/
def findSetting {α : Type} (s : List (Setting α)) (k : String) :
    Option (Setting α) :=
  s.find? (fun e => e.key == k)

/-- Embeds the static `getSetting(key, defaultValue)`: the stored value when
a document with that key exists, the supplied default otherwise. -/
def getSetting {α : Type} (s : List (Setting α)) (k : String) (dflt : α) : α :=
  match findSetting s k with
  | some e => e.value
  | none => dflt

/-- Embeds the static `setSetting(key, value, description)`:
`findOneAndUpdate({key}, {key, value, description}, {upsert: true})` —
replace the first document with that key, or append a new one. -/
def setSetting {α : Type} (s : List (Setting α)) (k : String) (v : α)
    (desc : String) : List (Setting α) :=
  match s with
  | [] => [⟨k, v, desc⟩]
  | e :: rest =>
      if e.key == k then ⟨k, v, desc⟩ :: rest
      else e :: setSetting rest k v desc

/-- Response of the bank-details-visibility read endpoint. -/
structure BankVisResp where
  status : Nat
  showBankDetails : Bool
deriving DecidableEq, Repr

/-- Embeds `getBankDetailsVisibility`: reads the `'showBankDetails'` setting
with default `true` and returns it with HTTP 200. -/
def getBankDetailsVisibility (s : List (Setting Bool)) : BankVisResp :=
  { status := 200, showBankDetails := getSetting s "showBankDetails" true }

/-- Models JavaScript `toUpperCase()` on the ASCII identifiers used for
trade types (`'long'`/`'short'`), character by character. -/
def jsToUpper (s : String) : String :=
  ⟨s.data.map Char.toUpper⟩

/-- Models JavaScript `trim()`: strip leading and trailing whitespace. -/
def jsTrim (s : String) : String :=
  ⟨((s.data.dropWhile (fun c => c.isWhitespace)).reverse.dropWhile
    (fun c => c.isWhitespace)).reverse⟩

/-- Request body of `createTrade` (validated happy path: the handler first
rejects with 400 when any of userId/symbol/tradeType/quantity/buyPrice is
falsy).  `priceRangeLow`/`priceRangeHigh` are optional. -/
structure CreateTradeInput where
  userId : Nat
  symbol : String
  tradeType : String
  quantity : ℚ
  buyPrice : ℚ
  priceRangeLow : Option ℚ
  priceRangeHigh : Option ℚ
deriving DecidableEq, Repr

/-- Embeds `createTrade`: `tradeAmount = quantity * buyPrice`, `priceRange`
with `mid` always the buy price, `currentPrice` initialised to the buy price
only when both range bounds were supplied, status `OPEN`, `type` uppercased. -/
def createTrade (inp : CreateTradeInput) : Order :=
  let tradeAmount := inp.quantity * inp.buyPrice
  let priceRange : PriceRange :=
    { low := inp.priceRangeLow, high := inp.priceRangeHigh, mid := inp.buyPrice }
  let currentPrice :=
    if priceRange.low.isSome ∧ priceRange.high.isSome
    then some inp.buyPrice else none
  { userId := inp.userId
    symbol := inp.symbol
    type := jsToUpper inp.tradeType
    quantity := inp.quantity
    buyPrice := inp.buyPrice
    sellPrice := none
    tradeAmount := tradeAmount
    priceRange := priceRange
    currentPrice := currentPrice
    profitLoss := none
    status := OrderStatus.OPEN }

/-- Fields of an `updateTrade` request body; `none` means the field is absent
from the payload. -/
structure TradeUpdate where
  quantity : Option ℚ
  buyPrice : Option ℚ
  sellPrice : Option ℚ
  type : Option String
  status : Option OrderStatus
  priceRangeLow : Option ℚ
  priceRangeHigh : Option ℚ
deriving DecidableEq, Repr

/-- The all-absent update payload, to be overridden field by field. -/
def TradeUpdate.empty : TradeUpdate :=
  { quantity := none, buyPrice := none, sellPrice := none, type := none
    status := none, priceRangeLow := none, priceRangeHigh := none }

/-- JavaScript truthiness of an optional numeric field: present and nonzero
(`0` is falsy in `if (updateData.x)`). -/
def truthyQ : Option ℚ → Bool
  | some x => decide (x ≠ 0)
  | none => false

/-- JavaScript `x || null` on an optional number: a stored `0` collapses to
`null` (used for `existingTrade.priceRange?.low || null`). -/
def jsOrNull : Option ℚ → Option ℚ
  | some x => if x = 0 then none else some x
  | none => none

/-- Embeds `updateTrade` (the handler body after the trade was found):

* when the payload carries `priceRangeLow` or `priceRangeHigh`, a fresh
  `priceRange` is built (absent bound falls back to `existing.priceRange?.low
  || null`), `mid` is the payload's truthy `buyPrice` or the stored one, and
  `currentPrice` is reset to that buy price when both bounds are non-null and
  the trade is (or is being set) `OPEN`;
* `profitLoss` is computed only when the payload itself carries truthy
  `sellPrice`, `buyPrice` and `quantity`, branching on the payload's
  `type?.toUpperCase() === 'LONG'`;
* `tradeAmount` is recomputed only when the payload carries truthy
  `quantity` and truthy `buyPrice`;
* `findByIdAndUpdate` then overwrites exactly the fields present in the
  payload (plus any computed ones) and keeps the rest of the document. -/
def updateTrade (ex : Order) (u : TradeUpdate) : Order :=
  let hasRangeEdit := u.priceRangeLow.isSome ∨ u.priceRangeHigh.isSome
  let rangeBuyPrice := if truthyQ u.buyPrice then u.buyPrice.getD 0 else ex.buyPrice
  let newRange : PriceRange :=
    { low := match u.priceRangeLow with
        | some x => some x
        | none => jsOrNull ex.priceRange.low
      high := match u.priceRangeHigh with
        | some x => some x
        | none => jsOrNull ex.priceRange.high
      mid := rangeBuyPrice }
  let setCurrentPrice :=
    hasRangeEdit ∧ newRange.low.isSome ∧ newRange.high.isSome ∧
      (u.status = some OrderStatus.OPEN ∨ ex.status = OrderStatus.OPEN)
  let newProfitLoss : Option ℚ :=
    if truthyQ u.sellPrice ∧ truthyQ u.buyPrice ∧ truthyQ u.quantity then
      let buyTotal := u.buyPrice.getD 0 * u.quantity.getD 0
      let sellTotal := u.sellPrice.getD 0 * u.quantity.getD 0
      some (if u.type.map jsToUpper = some "LONG"
            then sellTotal - buyTotal else buyTotal - sellTotal)
    else none
  let newTradeAmount : Option ℚ :=
    if truthyQ u.quantity ∧ truthyQ u.buyPrice
    then some (u.quantity.getD 0 * u.buyPrice.getD 0) else none
  { ex with
    quantity := u.quantity.getD ex.quantity
    buyPrice := u.buyPrice.getD ex.buyPrice
    sellPrice := match u.sellPrice with
      | some s => some s
      | none => ex.sellPrice
    type := u.type.getD ex.type
    status := u.status.getD ex.status
    priceRange := if hasRangeEdit then newRange else ex.priceRange
    currentPrice := if setCurrentPrice then some rangeBuyPrice else ex.currentPrice
    profitLoss := match newProfitLoss with
      | some p => some p
      | none => ex.profitLoss
    tradeAmount := newTradeAmount.getD ex.tradeAmount }

/-- A user document, the fields touched by login and the approval workflow.
`password` holds the stored (hashed) credential. -/
structure UserRec where
  email : String
  name : String
  password : String
  generatedPassword : Option String
  isVerified : Bool
  role : String
deriving DecidableEq, Repr

/-- A minimal HTTP response: status code and the handler's `message`. -/
structure HttpResp where
  status : Nat
  message : String
deriving DecidableEq, Repr

/-- JavaScript falsiness of an optional string body field: absent or empty
(`if (!email || !password)`). -/
def falsyStr : Option String → Bool
  | none => true
  | some s => s == ""

/-- Embeds `login`.  `lookup` models `User.findOne({email})`; `compare`
models `bcrypt.compare`.  The source checks the credential (401 on mismatch,
after 401 on unknown email) *before* the `isVerified === false` check (402);
token generation is a pure step between the two and is elided. -/
def login (email password : Option String) (lookup : String → Option UserRec)
    (compare : String → String → Bool) : HttpResp :=
  if falsyStr email ∨ falsyStr password then
    { status := 400, message := "Please provide email and password" }
  else
    match lookup (email.getD "") with
    | none => { status := 401, message := "Invalid email" }
    | some user =>
        if ¬ compare (jsTrim (password.getD "")) (jsTrim user.password) then
          { status := 401, message := "Invalid password" }
        else if user.isVerified = false then
          { status := 402, message := "Your are not Verified" }
        else
          { status := 200, message := "login success" }

/-- Which provider delivered the message. -/
inductive Provider
  | resend
  | smtp
deriving DecidableEq, Repr

/-- Successful send result: provider plus the provider's message id. -/
structure SendInfo where
  provider : Provider
  id : String
deriving DecidableEq, Repr

/-- Outcomes of the two external providers for one `sendEmail` call, and
whether each is configured (`getResendClient()` / `getTransporter()` null
when the corresponding credentials are missing). -/
structure SendEnv where
  resendConfigured : Bool
  resendOutcome : Except String String
  transporterConfigured : Bool
  smtpOutcome : Except String String
deriving Repr

/-- Mail options as far as `sendEmail` inspects them: recipients and an
optional explicit sender (the source's `to` and `from` fields — renamed
because both words are reserved in Lean). -/
structure MailOptions where
  toAddrs : List String
  fromAddr : Option String
deriving DecidableEq, Repr

/-- Embeds `normalizeRecipients`: `null` becomes `[]` (the empty list), a
single address becomes a one-element list, and `.filter(Boolean)` drops
empty strings. -/
def normalizeRecipients (recipients : List String) : List String :=
  recipients.filter (fun r => r != "")

/-- The secondary (SMTP) path at the end of `sendEmail`: fails when no
transporter is configured, otherwise returns the transporter's outcome. -/
def smtpSend (env : SendEnv) : Except String SendInfo :=
  if env.transporterConfigured then
    match env.smtpOutcome with
    | Except.ok id => Except.ok { provider := Provider.smtp, id := id }
    | Except.error e => Except.error e
  else
    Except.error
      "Email service not configured. Set RESEND_API_KEY or GoDaddy SMTP credentials."

/-- Embeds one `sendEmail` call.  Besides the send result it returns the
number of Resend API calls the attempt performed (to state that the primary
path is never retried locally).  Control flow of the source: empty
normalized recipient list throws; a blank sender (explicit `from` falls back
to `getDefaultFromAddress()`) throws; a configured Resend client is called
once — on success the call returns, on failure it falls through to the
SMTP transporter within the same call. -/
def sendEmail (env : SendEnv) (defaultFrom : String) (mail : MailOptions) :
    Except String SendInfo × Nat :=
  let recipients := normalizeRecipients mail.toAddrs
  if recipients.isEmpty then
    (Except.error "Email recipient is required", 0)
  else
    let sender :=
      if jsTrim (mail.fromAddr.getD "") ≠ "" then jsTrim (mail.fromAddr.getD "")
      else defaultFrom
    if sender = "" then
      (Except.error
        "Email sender address is not configured. Set EMAIL_FROM or EMAIL_USER.", 0)
    else if env.resendConfigured then
      match env.resendOutcome with
      | Except.ok id => (Except.ok { provider := Provider.resend, id := id }, 1)
      | Except.error _ => (smtpSend env, 1)
    else
      (smtpSend env, 0)

/-- Back-off before the retry following a failed attempt:
`Math.min(2000 * Math.pow(2, attempt - 1), 10000)` milliseconds. -/
def waitTime (attempt : Nat) : Nat :=
  min (2000 * 2 ^ (attempt - 1)) 10000

/-- Trace of one `sendEmailWithRetry` run: the surfaced result, the attempt
numbers on which the underlying `sendEmail` was invoked, and the back-off
waits performed between consecutive attempts.  The error type is `Option ε`
because the dead `throw lastError` after the loop would throw `undefined`
when the loop never ran. -/
structure RetryTrace (ε α : Type) where
  result : Except (Option ε) α
  tried : List Nat
  waits : List Nat
deriving Repr

/-- The `for (attempt = 1; attempt <= maxRetries; attempt++)` loop of
`sendEmailWithRetry`, entered at `attempt` with `lastErr` holding the error
of the previous iteration.  A successful `sendEmail` returns immediately; a
failure on the final attempt rethrows that error; otherwise the loop waits
`waitTime attempt` and retries (the connection-error transporter reset does
not change the control flow modelled here). -/
def retryGo {ε α : Type} (send : Nat → Except ε α) (maxRetries attempt : Nat)
    (lastErr : Option ε) : RetryTrace ε α :=
  if _h : attempt ≤ maxRetries then
    match send attempt with
    | Except.ok a => ⟨Except.ok a, [attempt], []⟩
    | Except.error e =>
        if h2 : attempt = maxRetries then ⟨Except.error (some e), [attempt], []⟩
        else
          let rest := retryGo send maxRetries (attempt + 1) (some e)
          ⟨rest.result, attempt :: rest.tried, waitTime attempt :: rest.waits⟩
  else
    ⟨Except.error lastErr, [], []⟩
termination_by maxRetries + 1 - attempt
decreasing_by omega

/-- Embeds `sendEmailWithRetry(mailOptions, maxRetries = 3)`: the loop above
started at attempt 1 with no previous error.  `send n` is the outcome of the
`sendEmail` call on attempt `n`. -/
def sendEmailWithRetry {ε α : Type} (send : Nat → Except ε α)
    (maxRetries : Nat) : RetryTrace ε α :=
  retryGo send maxRetries 1 none

/-- Result of an approve/reject handler call: HTTP status, the `emailSent`
field of the response body (absent on the 400/404 paths), the `isVerified`
value reported in the body, and the user document as stored after the call
(`none` when no user was found). -/
structure ApprovalResult where
  status : Nat
  emailSent : Option Bool
  reportedVerified : Option Bool
  finalUser : Option UserRec
deriving DecidableEq, Repr

/-- Embeds `userapprove` (the admin approval handler).  `userId` is the id
extracted from params/body/query (`none` or `""` is falsy → 400); `lookup`
is the result of `User.findById`; `emailResult` is the outcome of
`sendEmailWithRetry(mailOptions, 3)`; `hash` models the password hashing the
User model applies on `save()`.

Modelled from the spec: `user.model.js` is not among the source files — the
controller assigns the plaintext `newPassword` to `user.password` and calls
`user.save()`, and per the spec the stored credential is a hash
(“generate a credential … then invalidated by re-hash”), so persisting is
modelled as storing `hash newPassword`.

On email success the handler persists `password := hash newPassword`,
`generatedPassword := newPassword`, `isVerified := true` and responds 200
with `emailSent: true`; on email failure it performs no save and responds
500 with `emailSent: false` and the unchanged `isVerified`. -/
def userapprove (userId : Option String) (lookup : Option UserRec)
    (newPassword : String) (emailResult : Except (Option String) SendInfo)
    (hash : String → String) : ApprovalResult :=
  if falsyStr userId then
    { status := 400, emailSent := none, reportedVerified := none,
      finalUser := lookup }
  else
    match lookup with
    | none =>
        { status := 404, emailSent := none, reportedVerified := none,
          finalUser := none }
    | some user =>
        match emailResult with
        | Except.ok _ =>
            let user' := { user with
              password := hash newPassword
              generatedPassword := some newPassword
              isVerified := true }
            { status := 200, emailSent := some true,
              reportedVerified := some true, finalUser := some user' }
        | Except.error _ =>
            { status := 500, emailSent := some false,
              reportedVerified := some user.isVerified,
              finalUser := some user }

/-- Embeds `userreject`: same structure as `userapprove`, but on email
success it only sets `isVerified := false` (no credential is generated) and
on email failure it performs no save, responding 500 / `emailSent: false`. -/
def userreject (userId : Option String) (lookup : Option UserRec)
    (emailResult : Except (Option String) SendInfo) : ApprovalResult :=
  if falsyStr userId then
    { status := 400, emailSent := none, reportedVerified := none,
      finalUser := lookup }
  else
    match lookup with
    | none =>
        { status := 404, emailSent := none, reportedVerified := none,
          finalUser := none }
    | some user =>
        match emailResult with
        | Except.ok _ =>
            let user' := { user with isVerified := false }
            { status := 200, emailSent := some true,
              reportedVerified := some false, finalUser := some user' }
        | Except.error _ =>
            { status := 500, emailSent := some false,
              reportedVerified := some user.isVerified,
              finalUser := some user }

/-- `userapprove` wired to the notification gateway exactly as in the
source: the email outcome is `sendEmailWithRetry(…, 3)` over the per-attempt
`sendEmail` outcomes `send`. -/
def approveViaGateway (userId : String) (user : UserRec) (newPassword : String)
    (send : Nat → Except String SendInfo) (hash : String → String) :
    ApprovalResult :=
  userapprove (some userId) (some user) newPassword
    (sendEmailWithRetry send 3).result hash

/-- `userreject` wired to the notification gateway exactly as in the
source. -/
def rejectViaGateway (userId : String) (user : UserRec)
    (send : Nat → Except String SendInfo) : ApprovalResult :=
  userreject (some userId) (some user) (sendEmailWithRetry send 3).result

/-- Embeds the common trend-percentage pattern of `getAlluserKpis`
(instantiated four times: users, active traders, pending withdrawals,
pending deposits): previous-period total strictly positive → percentage
change formula; otherwise 100 when the current total is positive, else 0.
The source formats the first branch with `.toFixed(1)` for display; the
value modelled here is the computed percentage. -/
def trendPct (previous current : ℚ) : ℚ :=
  if previous > 0 then (current - previous) / previous * 100
  else if current > 0 then 100
  else 0

/-! ### Theorems -/

/-- C9: writing a setting and reading it back with any default returns the
written value, both when the key was absent (upsert appends) and when it was
present (upsert overwrites the matching document). -/
theorem setSetting_getSetting_roundtrip {α : Type} (s : List (Setting α))
    (k : String) (v d : α) (desc : String) :
    getSetting (setSetting s k v desc) k d = v := by
  induction s with
  | nil => simp [getSetting, setSetting, findSetting, List.find?]
  | cons e rest ih =>
      by_cases h : e.key == k
      · simp [getSetting, setSetting, findSetting, List.find?, h]
      · simp only [setSetting, h, if_neg]
        simp only [getSetting, findSetting, List.find?, h] at ih ⊢
        simpa [h] using ih

/-- C10: when no `'showBankDetails'` setting exists, the visibility read
endpoint answers 200 with `showBankDetails = true`, because `getSetting`
falls back to the supplied default and the handler passes `true`. -/
theorem getBankDetailsVisibility_default (s : List (Setting Bool))
    (h : findSetting s "showBankDetails" = none) :
    getBankDetailsVisibility s = { status := 200, showBankDetails := true } := by
  simp [getBankDetailsVisibility, getSetting, h]

/-- Witness for C10 at the empty settings store. -/
theorem getBankDetailsVisibility_default_witness :
    findSetting ([] : List (Setting Bool)) "showBankDetails" = none ∧
    getBankDetailsVisibility [] = { status := 200, showBankDetails := true } :=
  ⟨rfl, getBankDetailsVisibility_default [] rfl⟩

/-- C8: the KPI trend computation divides only when the previous-period
total is strictly positive, reports 100 when the previous total is zero and
the current (nonnegative) total is nonzero, and 0 when both are zero; in
particular `trendPct 0 500 = 100`. -/
theorem trendPct_cases (previous current : ℚ) (hcur : 0 ≤ current) :
    (0 < previous →
      trendPct previous current = (current - previous) / previous * 100) ∧
    (previous = 0 → current ≠ 0 → trendPct previous current = 100) ∧
    (previous = 0 → current = 0 → trendPct previous current = 0) ∧
    trendPct 0 500 = 100 ∧ trendPct 0 0 = 0 := by
  refine ⟨?_, ?_, ?_, by norm_num [trendPct], by norm_num [trendPct]⟩
  · intro hp
    simp [trendPct, hp]
  · intro h0 hne
    subst h0
    have hpos : 0 < current := lt_of_le_of_ne hcur (Ne.symm hne)
    simp [trendPct, hpos]
  · intro h0 hc
    subst h0; subst hc
    norm_num [trendPct]

/-- Witness for C8 at previous = 0, current = 500. -/
theorem trendPct_cases_witness :
    trendPct 0 500 = 100 ∧ trendPct 0 0 = 0 :=
  (trendPct_cases 0 500 (by norm_num)).2.2.2

/-- C6: `createTrade` establishes `tradeAmount = quantity * buyPrice`, but an
`updateTrade` payload supplying only `quantity` does not recompute
`tradeAmount` (the guard requires both `quantity` and `buyPrice` to be
truthy, against the source's own comment): on a trade created with
quantity 2, buyPrice 10, updating quantity to 5 leaves `tradeAmount = 20`
while `quantity * buyPrice = 50`. -/
theorem updateTrade_single_field_skips_tradeAmount :
    (createTrade ⟨1, "AAPL", "long", 2, 10, none, none⟩).tradeAmount =
        (createTrade ⟨1, "AAPL", "long", 2, 10, none, none⟩).quantity *
        (createTrade ⟨1, "AAPL", "long", 2, 10, none, none⟩).buyPrice ∧
    (updateTrade (createTrade ⟨1, "AAPL", "long", 2, 10, none, none⟩)
        { TradeUpdate.empty with quantity := some 5 }).quantity = 5 ∧
    (updateTrade (createTrade ⟨1, "AAPL", "long", 2, 10, none, none⟩)
        { TradeUpdate.empty with quantity := some 5 }).buyPrice = 10 ∧
    (updateTrade (createTrade ⟨1, "AAPL", "long", 2, 10, none, none⟩)
        { TradeUpdate.empty with quantity := some 5 }).tradeAmount = 20 ∧
    (updateTrade (createTrade ⟨1, "AAPL", "long", 2, 10, none, none⟩)
        { TradeUpdate.empty with quantity := some 5 }).tradeAmount ≠
      (updateTrade (createTrade ⟨1, "AAPL", "long", 2, 10, none, none⟩)
        { TradeUpdate.empty with quantity := some 5 }).quantity *
      (updateTrade (createTrade ⟨1, "AAPL", "long", 2, 10, none, none⟩)
        { TradeUpdate.empty with quantity := some 5 }).buyPrice := by
  refine ⟨?_, ?_, ?_, ?_, ?_⟩ <;>
    norm_num [createTrade, updateTrade, TradeUpdate.empty, truthyQ]

/-- C7 fails on the code in both halves: after updating only `sellPrice` on
a LONG trade that already has `buyPrice` and `quantity`, all three fields are
present yet `profitLoss` stays undefined (the computation requires all three
in the same payload); and a payload carrying all three but no `type` gets
the SHORT formula even though the stored order is LONG (`profitLoss = -10`
instead of the LONG value `+10`). -/
theorem updateTrade_profitLoss_counterexample :
    ((updateTrade (createTrade ⟨1, "AAPL", "long", 2, 10, none, none⟩)
        { TradeUpdate.empty with sellPrice := some 15 }).buyPrice = 10 ∧
      (updateTrade (createTrade ⟨1, "AAPL", "long", 2, 10, none, none⟩)
        { TradeUpdate.empty with sellPrice := some 15 }).sellPrice = some 15 ∧
      (updateTrade (createTrade ⟨1, "AAPL", "long", 2, 10, none, none⟩)
        { TradeUpdate.empty with sellPrice := some 15 }).quantity = 2 ∧
      (updateTrade (createTrade ⟨1, "AAPL", "long", 2, 10, none, none⟩)
        { TradeUpdate.empty with sellPrice := some 15 }).profitLoss = none) ∧
    ((updateTrade (createTrade ⟨1, "AAPL", "long", 2, 10, none, none⟩)
        { TradeUpdate.empty with
            sellPrice := some 15, buyPrice := some 10,
            quantity := some 2 }).type = "LONG" ∧
      (updateTrade (createTrade ⟨1, "AAPL", "long", 2, 10, none, none⟩)
        { TradeUpdate.empty with
            sellPrice := some 15, buyPrice := some 10,
            quantity := some 2 }).profitLoss = some (-10) ∧
      (updateTrade (createTrade ⟨1, "AAPL", "long", 2, 10, none, none⟩)
        { TradeUpdate.empty with
            sellPrice := some 15, buyPrice := some 10,
            quantity := some 2 }).profitLoss ≠ some (15 * 2 - 10 * 2)) := by
  refine ⟨⟨?_, ?_, ?_, ?_⟩, ?_, ?_, ?_⟩ <;>
      norm_num [createTrade, updateTrade, TradeUpdate.empty, truthyQ] <;>
    decide

/-- C7 amended: `updateTrade` computes `profitLoss` exactly when the update
payload itself carries truthy `sellPrice`, `buyPrice` and `quantity`; on a
payload whose `type` uppercases to `'LONG'` the value is
`sellPrice*quantity - buyPrice*quantity`, on any other payload (including an
absent `type`, whatever the stored order's type) it is
`buyPrice*quantity - sellPrice*quantity`; when one of the three is missing
from the payload the stored `profitLoss` is left unchanged. -/
theorem updateTrade_profitLoss_spec (ex : Order) (u : TradeUpdate) :
    (truthyQ u.sellPrice = true → truthyQ u.buyPrice = true →
      truthyQ u.quantity = true →
      (updateTrade ex u).profitLoss =
        some (if u.type.map jsToUpper = some "LONG"
          then u.sellPrice.getD 0 * u.quantity.getD 0 -
               u.buyPrice.getD 0 * u.quantity.getD 0
          else u.buyPrice.getD 0 * u.quantity.getD 0 -
               u.sellPrice.getD 0 * u.quantity.getD 0)) ∧
    (¬(truthyQ u.sellPrice = true ∧ truthyQ u.buyPrice = true ∧
        truthyQ u.quantity = true) →
      (updateTrade ex u).profitLoss = ex.profitLoss) := by
  constructor
  · intro h1 h2 h3
    simp [updateTrade, h1, h2, h3]
  · intro h
    simp only [updateTrade]
    rw [if_neg h]

/-- Witness for C7's amended statement: the LONG-typed payload branch and
the missing-field branch, each at a concrete input. -/
theorem updateTrade_profitLoss_spec_witness :
    (updateTrade (createTrade ⟨1, "AAPL", "long", 2, 10, none, none⟩)
      { TradeUpdate.empty with
          sellPrice := some 15, buyPrice := some 10, quantity := some 2,
          type := some "long" }).profitLoss =
      some (if (some "long").map jsToUpper = some "LONG"
        then (15 : ℚ) * 2 - 10 * 2 else (10 : ℚ) * 2 - 15 * 2) ∧
    (updateTrade (createTrade ⟨1, "AAPL", "long", 2, 10, none, none⟩)
      { TradeUpdate.empty with sellPrice := some 15 }).profitLoss =
      (createTrade ⟨1, "AAPL", "long", 2, 10, none, none⟩).profitLoss := by
  constructor
  · exact (updateTrade_profitLoss_spec _ _).1 (by decide) (by decide) (by decide)
  · exact (updateTrade_profitLoss_spec _ _).2 (by decide)

/-- C5 fails on the code: for an unverified user, a login whose password
does not match the stored hash answers 401, not 402 — the credential check
runs before the verification check. -/
theorem login_unverified_counterexample :
    (⟨"user@example.com", "U", "storedhash", none, false, "user"⟩ :
      UserRec).isVerified = false ∧
    (login (some "user@example.com") (some "wrongpw")
      (fun _ => some ⟨"user@example.com", "U", "storedhash", none, false,
        "user"⟩)
      (fun _ _ => false)).status = 401 ∧
    (login (some "user@example.com") (some "wrongpw")
      (fun _ => some ⟨"user@example.com", "U", "storedhash", none, false,
        "user"⟩)
      (fun _ _ => false)).status ≠ 402 := by
  refine ⟨by decide, by decide, by decide⟩

/-- C5 amended: for a login against a user with `isVerified = false` and
non-empty email/password fields, the response is 402 exactly when the
submitted password matches the stored hash; on a mismatch the credential
check answers 401 first. -/
theorem login_unverified_status (email password : String) (u : UserRec)
    (compare : String → String → Bool)
    (hemail : email ≠ "") (hpw : password ≠ "") (hver : u.isVerified = false) :
    (compare (jsTrim password) (jsTrim u.password) = true →
      (login (some email) (some password) (fun _ => some u) compare).status
        = 402) ∧
    (compare (jsTrim password) (jsTrim u.password) = false →
      (login (some email) (some password) (fun _ => some u) compare).status
        = 401) := by
  constructor
  · intro hc
    simp [login, falsyStr, hemail, hpw, hc, hver]
  · intro hc
    simp [login, falsyStr, hemail, hpw, hc]

/-- Witness for C5's amended statement: both branches at concrete inputs. -/
theorem login_unverified_status_witness :
    (login (some "user@example.com") (some "rightpw")
      (fun _ => some ⟨"user@example.com", "U", "storedhash", none, false,
        "user"⟩)
      (fun _ _ => true)).status = 402 ∧
    (login (some "user@example.com") (some "wrongpw")
      (fun _ => some ⟨"user@example.com", "U", "storedhash", none, false,
        "user"⟩)
      (fun _ _ => false)).status = 401 := by
  constructor
  · exact (login_unverified_status "user@example.com" "rightpw" _ _
      (by decide) (by decide) (by decide)).1 rfl
  · exact (login_unverified_status "user@example.com" "wrongpw" _ _
      (by decide) (by decide) (by decide)).2 rfl

/-- C3 fails on the code: with one completed deposit of 1000, one OPEN order
locking 500 and one CLOSED order with tradeAmount 200 and profitLoss 300,
the admin per-user view reports accountBalance 1000 (deposits minus
withdrawals only) and orderInvestment 700 (tradeAmount summed over all
orders, CLOSED included), while the claimed invariant demands
accountBalance 800 and orderInvestment 500 (the dashboard's values). -/
theorem getUserbyId_invariant_counterexample :
    (getUserbyIdBalanceInfo 1
        [{ userId := 1, type := TxType.DEPOSIT, status := TxStatus.COMPLETED,
           amount := 1000 }]
        [{ userId := 1, symbol := "A", type := "LONG", quantity := 5,
           buyPrice := 100, sellPrice := none, tradeAmount := 500,
           priceRange := ⟨none, none, 100⟩, currentPrice := none,
           profitLoss := none, status := OrderStatus.OPEN },
         { userId := 1, symbol := "B", type := "LONG", quantity := 2,
           buyPrice := 100, sellPrice := some 250, tradeAmount := 200,
           priceRange := ⟨none, none, 100⟩, currentPrice := none,
           profitLoss := some 300, status := OrderStatus.CLOSED }]) =
      { accountBalance := 1000, totalDeposit := 1000, totalWithdrawals := 0,
        orderInvestment := 700, profitLoss := 300 } ∧
    (getUserDashboardData 1
        [{ userId := 1, type := TxType.DEPOSIT, status := TxStatus.COMPLETED,
           amount := 1000 }]
        [{ userId := 1, symbol := "A", type := "LONG", quantity := 5,
           buyPrice := 100, sellPrice := none, tradeAmount := 500,
           priceRange := ⟨none, none, 100⟩, currentPrice := none,
           profitLoss := none, status := OrderStatus.OPEN },
         { userId := 1, symbol := "B", type := "LONG", quantity := 2,
           buyPrice := 100, sellPrice := some 250, tradeAmount := 200,
           priceRange := ⟨none, none, 100⟩, currentPrice := none,
           profitLoss := some 300, status := OrderStatus.CLOSED }]).accountBalance
      = 800 ∧
    (1000 : ℚ) ≠ 800 ∧ (700 : ℚ) ≠ 500 := by
  refine ⟨?_, ?_, ?_, ?_⟩ <;>
      simp [getUserbyIdBalanceInfo, getUserDashboardData] <;>
    norm_num

/-- Summing a conditionally-zeroed amount over the user's documents equals
summing the amount over the documents matching both the user and the
condition — relates the admin view's `$cond` aggregation to plain
filter-and-sum. -/
theorem sum_map_ite_filter {α : Type} (uid : Nat) (idOf : α → Nat)
    (p : α → Prop) [DecidablePred p] (f : α → ℚ) (l : List α) :
    ((l.filter (fun a => decide (idOf a = uid))).map
        (fun a => if p a then f a else 0)).sum =
      ((l.filter (fun a => decide (idOf a = uid ∧ p a))).map f).sum := by
  induction l with
  | nil => simp
  | cons a t ih =>
      by_cases hu : idOf a = uid
      · by_cases hp : p a
        · simp [hu, hp, ih]
        · simp [hu, hp, ih]
      · simp [hu, ih]

/-- C3 amended: the admin per-user view does not obey the balance
composition invariant — its `accountBalance` is completed deposits minus
completed withdrawals with no order terms, and its `orderInvestment` and
`profitLoss` sum over all of the user's orders regardless of status;
the invariant `accountBalance = baseBalance - sum(tradeAmount | OPEN) +
sum(profitLoss | CLOSED)` holds for the dashboard read. -/
theorem getUserbyId_balanceInfo_shape (uid : Nat) (txs : List Tx)
    (orders : List Order) :
    (getUserbyIdBalanceInfo uid txs orders).accountBalance =
      ((txs.filter (fun t => decide (t.userId = uid ∧
          t.type = TxType.DEPOSIT ∧ t.status = TxStatus.COMPLETED))).map
        (fun t => t.amount)).sum -
      ((txs.filter (fun t => decide (t.userId = uid ∧
          t.type = TxType.WITHDRAWAL ∧ t.status = TxStatus.COMPLETED))).map
        (fun t => t.amount)).sum ∧
    (getUserbyIdBalanceInfo uid txs orders).orderInvestment =
      ((orders.filter (fun o => decide (o.userId = uid))).map
        (fun o => o.tradeAmount)).sum ∧
    (getUserbyIdBalanceInfo uid txs orders).profitLoss =
      ((orders.filter (fun o => decide (o.userId = uid))).map
        (fun o => o.profitLoss.getD 0)).sum ∧
    (getUserDashboardData uid txs orders).accountBalance =
      (getUserDashboardData uid txs orders).totalDeposit -
      (getUserDashboardData uid txs orders).totalWithdrawals -
      (getUserDashboardData uid txs orders).orderInvestment +
      (getUserDashboardData uid txs orders).profitLoss := by
  refine ⟨?_, rfl, rfl, rfl⟩
  simp only [getUserbyIdBalanceInfo]
  rw [sum_map_ite_filter uid (fun t => t.userId)
      (fun t => t.type = TxType.DEPOSIT ∧ t.status = TxStatus.COMPLETED)
      (fun t => t.amount) txs,
    sum_map_ite_filter uid (fun t => t.userId)
      (fun t => t.type = TxType.WITHDRAWAL ∧ t.status = TxStatus.COMPLETED)
      (fun t => t.amount) txs]

/-- C2: the dashboard read computes exactly the claimed sums (completed
deposits minus completed withdrawals, minus capital locked in OPEN orders,
plus realized P&L of CLOSED orders with missing `profitLoss` as 0); a
transaction in any non-COMPLETED status contributes nothing; and the result
is invariant under reordering of both ledgers. -/
theorem getUserDashboardData_spec (uid : Nat) (txs txs' : List Tx)
    (orders orders' : List Order) :
    ((getUserDashboardData uid txs orders).totalDeposit =
      ((txs.filter (fun t => decide (t.userId = uid ∧
          t.type = TxType.DEPOSIT ∧ t.status = TxStatus.COMPLETED))).map
        (fun t => t.amount)).sum ∧
    (getUserDashboardData uid txs orders).totalWithdrawals =
      ((txs.filter (fun t => decide (t.userId = uid ∧
          t.type = TxType.WITHDRAWAL ∧ t.status = TxStatus.COMPLETED))).map
        (fun t => t.amount)).sum ∧
    (getUserDashboardData uid txs orders).orderInvestment =
      ((orders.filter (fun o => decide (o.userId = uid ∧
          o.status = OrderStatus.OPEN))).map (fun o => o.tradeAmount)).sum ∧
    (getUserDashboardData uid txs orders).profitLoss =
      ((orders.filter (fun o => decide (o.userId = uid ∧
          o.status = OrderStatus.CLOSED))).map
        (fun o => o.profitLoss.getD 0)).sum ∧
    (getUserDashboardData uid txs orders).accountBalance =
      (getUserDashboardData uid txs orders).totalDeposit -
      (getUserDashboardData uid txs orders).totalWithdrawals -
      (getUserDashboardData uid txs orders).orderInvestment +
      (getUserDashboardData uid txs orders).profitLoss) ∧
    (∀ t : Tx, t.status ≠ TxStatus.COMPLETED →
      getUserDashboardData uid (t :: txs) orders =
        getUserDashboardData uid txs orders) ∧
    (txs.Perm txs' → orders.Perm orders' →
      getUserDashboardData uid txs orders =
        getUserDashboardData uid txs' orders') := by
  refine ⟨⟨rfl, rfl, rfl, rfl, rfl⟩, ?_, ?_⟩
  · intro t ht
    simp [getUserDashboardData, ht]
  · intro h1 h2
    have e1 := ((h1.filter (fun t => decide (t.userId = uid ∧
      t.type = TxType.DEPOSIT ∧ t.status = TxStatus.COMPLETED))).map
        (fun t : Tx => t.amount)).sum_eq
    have e2 := ((h1.filter (fun t => decide (t.userId = uid ∧
      t.type = TxType.WITHDRAWAL ∧ t.status = TxStatus.COMPLETED))).map
        (fun t : Tx => t.amount)).sum_eq
    have e3 := ((h2.filter (fun o => decide (o.userId = uid ∧
      o.status = OrderStatus.OPEN))).map
        (fun o : Order => o.tradeAmount)).sum_eq
    have e4 := ((h2.filter (fun o => decide (o.userId = uid ∧
      o.status = OrderStatus.CLOSED))).map
        (fun o : Order => o.profitLoss.getD 0)).sum_eq
    simp only [Bool.decide_and] at e1 e2 e3 e4
    simp [getUserDashboardData, e1, e2, e3, e4]

/-- Witness for C2: a PENDING deposit changes nothing, and swapping the two
transactions of a ledger leaves the dashboard untouched. -/
theorem getUserDashboardData_spec_witness :
    getUserDashboardData 1
        [⟨1, TxType.DEPOSIT, TxStatus.PENDING, 700⟩,
          ⟨1, TxType.DEPOSIT, TxStatus.COMPLETED, 1000⟩,
          ⟨1, TxType.WITHDRAWAL, TxStatus.COMPLETED, 200⟩] [] =
      getUserDashboardData 1
        [⟨1, TxType.DEPOSIT, TxStatus.COMPLETED, 1000⟩,
          ⟨1, TxType.WITHDRAWAL, TxStatus.COMPLETED, 200⟩] [] ∧
    getUserDashboardData 1
        [⟨1, TxType.DEPOSIT, TxStatus.COMPLETED, 1000⟩,
          ⟨1, TxType.WITHDRAWAL, TxStatus.COMPLETED, 200⟩] [] =
      getUserDashboardData 1
        [⟨1, TxType.WITHDRAWAL, TxStatus.COMPLETED, 200⟩,
          ⟨1, TxType.DEPOSIT, TxStatus.COMPLETED, 1000⟩] [] := by
  constructor
  · exact (getUserDashboardData_spec 1
      [⟨1, TxType.DEPOSIT, TxStatus.COMPLETED, 1000⟩,
        ⟨1, TxType.WITHDRAWAL, TxStatus.COMPLETED, 200⟩] [] [] []).2.1
      ⟨1, TxType.DEPOSIT, TxStatus.PENDING, 700⟩ (by decide)
  · exact (getUserDashboardData_spec 1
      [⟨1, TxType.DEPOSIT, TxStatus.COMPLETED, 1000⟩,
        ⟨1, TxType.WITHDRAWAL, TxStatus.COMPLETED, 200⟩]
      [⟨1, TxType.WITHDRAWAL, TxStatus.COMPLETED, 200⟩,
        ⟨1, TxType.DEPOSIT, TxStatus.COMPLETED, 1000⟩] [] []).2.2
      (List.Perm.swap (⟨1, TxType.WITHDRAWAL, TxStatus.COMPLETED, 200⟩ : Tx)
        (⟨1, TxType.DEPOSIT, TxStatus.COMPLETED, 1000⟩ : Tx) [])
      (List.Perm.refl [])

/-- Running the gateway retry with every attempt failing exhausts exactly
attempts 1, 2, 3, waits after the first two failures, and surfaces the
error of the third (last) attempt. -/
theorem retry_all_fail {ε α : Type} (errs : Nat → ε) :
    sendEmailWithRetry (fun a => (Except.error (errs a) : Except ε α)) 3 =
      ⟨Except.error (some (errs 3)), [1, 2, 3], [waitTime 1, waitTime 2]⟩ := by
  simp [sendEmailWithRetry, retryGo]

/-- Running the gateway retry with a first-attempt success performs exactly
one attempt and no waits. -/
theorem retry_ok {ε α : Type} (info : α) :
    sendEmailWithRetry (fun _ => (Except.ok info : Except ε α)) 3 =
      ⟨Except.ok info, [1], []⟩ := by
  simp [sendEmailWithRetry, retryGo]

/-- Whatever the per-attempt outcomes, the retry wrapper invokes `sendEmail`
on at most 3 attempts. -/
theorem retry_len {ε α : Type} (send : Nat → Except ε α) :
    (sendEmailWithRetry send 3).tried.length ≤ 3 := by
  unfold sendEmailWithRetry
  rcases h1 : send 1 with e1 | a1 <;> rcases h2 : send 2 with e2 | a2 <;>
    rcases h3 : send 3 with e3 | a3 <;>
    simp [retryGo, h1, h2, h3]

/-- C4: the notification retry policy performs at most 3 attempts; with
every attempt failing it tries attempts 1, 2, 3, waits
`min(2s * 2^(attempt-1), 10s)` between consecutive attempts — 2000 ms then
4000 ms, both under the 10000 ms cap — and surfaces the last attempt's
error; and within one attempt the primary (Resend API) provider is called
at most once, a failure of it falling through to the SMTP path of the same
attempt with no local retry of the API path. -/
theorem sendEmailWithRetry_policy {ε α : Type} (send : Nat → Except ε α)
    (errs : Nat → ε) (env : SendEnv) (defaultFrom : String)
    (mail : MailOptions) :
    (sendEmailWithRetry send 3).tried.length ≤ 3 ∧
    sendEmailWithRetry (fun a => (Except.error (errs a) : Except ε α)) 3 =
      ⟨Except.error (some (errs 3)), [1, 2, 3], [2000, 4000]⟩ ∧
    waitTime 1 = 2000 ∧ waitTime 2 = 4000 ∧
    waitTime 1 ≤ 10000 ∧ waitTime 2 ≤ 10000 ∧
    (sendEmail env defaultFrom mail).2 ≤ 1 ∧
    (env.resendConfigured = true →
      (∃ e, env.resendOutcome = Except.error e) →
      (normalizeRecipients mail.toAddrs).isEmpty = false →
      (if jsTrim (mail.fromAddr.getD "") ≠ "" then jsTrim (mail.fromAddr.getD "")
        else defaultFrom) ≠ "" →
      (sendEmail env defaultFrom mail).1 = smtpSend env) := by
  refine ⟨retry_len send, ?_, by norm_num [waitTime], by norm_num [waitTime],
    by norm_num [waitTime], by norm_num [waitTime], ?_, ?_⟩
  · rw [retry_all_fail errs]
    norm_num [waitTime]
  · rcases ho : env.resendOutcome with e | i <;>
      simp only [sendEmail, ho] <;> split_ifs <;> simp
  · intro hc hex hr hs
    obtain ⟨e, he⟩ := hex
    by_cases ht : jsTrim (mail.fromAddr.getD "") = ""
    · have hd : defaultFrom ≠ "" := by simpa [ht] using hs
      simp [sendEmail, hr, hc, he, ht, hd]
    · simp [sendEmail, hr, hc, he, ht]

/-- Witness for C4 at an environment whose Resend client is configured but
failing: the call falls through to the SMTP result of the same attempt and
performs one API call. -/
theorem sendEmailWithRetry_policy_witness :
    (sendEmail
        ⟨true, Except.error "api down", true, Except.ok "smtp-id"⟩
        "no-reply@forexflowtrade.com" ⟨["user@example.com"], none⟩).1 =
      smtpSend ⟨true, Except.error "api down", true, Except.ok "smtp-id"⟩ ∧
    (sendEmailWithRetry
        (fun _ => (Except.error "boom" : Except String SendInfo)) 3).tried.length
      ≤ 3 := by
  constructor
  · exact (sendEmailWithRetry_policy
      (fun _ => (Except.error "boom" : Except String SendInfo))
      (fun _ => "boom")
      ⟨true, Except.error "api down", true, Except.ok "smtp-id"⟩
      "no-reply@forexflowtrade.com" ⟨["user@example.com"], none⟩).2.2.2.2.2.2.2
      rfl ⟨"api down", rfl⟩ (by decide) (by decide)
  · exact (sendEmailWithRetry_policy
      (fun _ => (Except.error "boom" : Except String SendInfo))
      (fun _ => "boom")
      ⟨true, Except.error "api down", true, Except.ok "smtp-id"⟩
      "no-reply@forexflowtrade.com" ⟨["user@example.com"], none⟩).1

/-- C1: the approval workflow is fail-closed.  With the gateway failing on
every attempt (all retries exhausted), `userapprove` and `userreject` leave
the user document untouched — `isVerified` and the stored credential
unchanged — and respond 500 with `emailSent: false`; with the gateway
succeeding, `userapprove` persists the hash of the newly generated
credential and `isVerified = true` (200, `emailSent: true`), and
`userreject` persists `isVerified = false` (200, `emailSent: true`). -/
theorem approval_fail_closed (uid : String) (huid : uid ≠ "")
    (user : UserRec) (pw : String) (hash : String → String)
    (errs : Nat → String) (info : SendInfo) :
    approveViaGateway uid user pw (fun a => Except.error (errs a)) hash =
      { status := 500, emailSent := some false,
        reportedVerified := some user.isVerified, finalUser := some user } ∧
    approveViaGateway uid user pw (fun _ => Except.ok info) hash =
      { status := 200, emailSent := some true,
        reportedVerified := some true,
        finalUser := some { user with
          password := hash pw
          generatedPassword := some pw
          isVerified := true } } ∧
    rejectViaGateway uid user (fun a => Except.error (errs a)) =
      { status := 500, emailSent := some false,
        reportedVerified := some user.isVerified, finalUser := some user } ∧
    rejectViaGateway uid user (fun _ => Except.ok info) =
      { status := 200, emailSent := some true,
        reportedVerified := some false,
        finalUser := some { user with isVerified := false } } := by
  unfold approveViaGateway rejectViaGateway
  rw [retry_all_fail errs, retry_ok info]
  refine ⟨?_, ?_, ?_, ?_⟩ <;> simp [userapprove, userreject, falsyStr, huid]

/-- Witness for C1 at a concrete unverified user, an always-failing gateway
and an immediately-succeeding gateway. -/
theorem approval_fail_closed_witness :
    approveViaGateway "u1"
        ⟨"user@example.com", "U", "oldhash", none, false, "user"⟩ "pw12"
        (fun _ => Except.error "boom") (fun s => String.append "H" s) =
      { status := 500, emailSent := some false,
        reportedVerified := some false,
        finalUser := some ⟨"user@example.com", "U", "oldhash", none, false,
          "user"⟩ } ∧
    approveViaGateway "u1"
        ⟨"user@example.com", "U", "oldhash", none, false, "user"⟩ "pw12"
        (fun _ => Except.ok ⟨Provider.smtp, "id1"⟩)
        (fun s => String.append "H" s) =
      { status := 200, emailSent := some true,
        reportedVerified := some true,
        finalUser := some ⟨"user@example.com", "U", "Hpw12", some "pw12",
          true, "user"⟩ } := by
  constructor
  · exact (approval_fail_closed "u1" (by decide)
      ⟨"user@example.com", "U", "oldhash", none, false, "user"⟩ "pw12"
      (fun s => String.append "H" s) (fun _ => "boom")
      ⟨Provider.smtp, "id1"⟩).1
  · exact (approval_fail_closed "u1" (by decide)
      ⟨"user@example.com", "U", "oldhash", none, false, "user"⟩ "pw12"
      (fun s => String.append "H" s) (fun _ => "boom")
      ⟨Provider.smtp, "id1"⟩).2.1

end Backend
